import Mathlib

/-!
Verification of the messaging backend's transactional business-logic layer
(`src/server/src/lib/server.py`) over a shallow embedding of its relational
schema (`src/server/src/lib/db/orm.py`).

The database state is embedded as lists of rows, one list per table.  Each
domain operation's unit of work (the inner `do(session)` closure submitted
through the DAO) is embedded as a pure function from a database state (and the
operation's arguments) to the new state and the operation's result.  SQLAlchemy
query combinators are translated directly: `query(..).filter(c).first()`
becomes `List.find?`, `query(..).filter(c).all()` becomes `List.filter`, an
inner join through a foreign key becomes a membership test against the joined
table, and `session.add` appends a row.  Fresh primary keys, which the storage
layer assigns on insert, are passed in as explicit parameters.

Error strings produced by the code are embedded as constructors of `ErrMsg`
carrying the interpolated data; for the two errors that interpolate a Python
`set` (whose iteration order the language does not fix) the constructor
carries the set itself.
-/

/-- Row of the `User` table (`orm.User`): integer primary key and a name. -/
structure UserRow where
  id : Nat
  name : String
  deriving DecidableEq, Repr

/-- Row of the `GroupChat` table (`orm.GroupChat`). -/
structure GroupChatRow where
  id : Nat
  name : String
  deriving DecidableEq, Repr

/-- Row of the `P2PMessage` table (`orm.P2PMessage`): a direct message with
origin and target user foreign keys. -/
structure P2PMessageRow where
  id : Nat
  message : String
  origin_user_id : Nat
  target_user_id : Nat
  deriving DecidableEq, Repr

/-- Row of the `GroupChatMembers` table (`orm.GroupChatMembers`): a membership
of a user in a group chat.  The source declares only the primary key on `id`
and the two foreign keys; `UniqueConstraint` is imported in `orm.py` but never
attached to this table. -/
structure GroupChatMemberRow where
  id : Nat
  user_id : Nat
  group_chat_id : Nat
  deriving DecidableEq, Repr

/-- Row of the `GroupChatMessage` table (`orm.GroupChatMessage`): a message
bound to a membership row by the `group_chat_member_id` foreign key.  The
foreign key is declared with no ON DELETE action and no ORM-level cascade. -/
structure GroupChatMessageRow where
  id : Nat
  message : String
  group_chat_member_id : Nat
  deriving DecidableEq, Repr

/-- The database state: one list of rows per table of the schema. -/
structure DB where
  users : List UserRow
  groupChats : List GroupChatRow
  p2pMessages : List P2PMessageRow
  groupChatMembers : List GroupChatMemberRow
  groupChatMessages : List GroupChatMessageRow
  deriving DecidableEq, Repr

/-- The error strings built by the server, as structured values carrying the
data the code interpolates into them.  `unknownIdentifiers` and `usersInChat`
carry a `Finset` because the code interpolates a Python set, whose iteration
order is unspecified. -/
inductive ErrMsg where
  /-- `"Identifier <id> does not exist"` -/
  | identifierNotFound (id : Nat)
  /-- `"User <u> is not a member of chat <c>"` -/
  | notMember (userId : Nat) (chatId : Nat)
  /-- `"Unknown identifiers [<ids>]"` -/
  | unknownIdentifiers (ids : Finset Nat)
  /-- `"Users [<ids>] are in chat <c>"` -/
  | usersInChat (ids : Finset Nat) (chatId : Nat)
  /-- `"Unknown identifier <id>"` -/
  | unknownIdentifier (id : Nat)
  deriving DecidableEq

namespace Server

/-- The join predicate of the group branch of `Server._get_messages`:
`query(GroupChatMessage.message).join(GroupChatMembers).filter(GroupChatMembers.group_chat_id == uid)`
keeps a message row iff a membership row with the message's
`group_chat_member_id` exists and belongs to chat `uid`.  (Membership ids are
primary keys, so the inner join matches at most one membership row.) -/
def joinedToChat (db : DB) (uid : Nat) (m : GroupChatMessageRow) : Bool :=
  db.groupChatMembers.any fun gm => gm.id == m.group_chat_member_id && gm.group_chat_id == uid

/-- The unit of work of `Server._get_messages` (`server.py` lines 87-102):
resolve `uid` in `User` (if `is_group` is false) or `GroupChat` (if true);
if absent return `none` (which the caller turns into the NotFound error);
otherwise return the message texts: direct messages whose origin is `uid`,
or group messages joined through `GroupChatMembers` to chat `uid`. -/
def get_messages_do (db : DB) (uid : Nat) (is_group : Bool) : Option (List String) :=
  if is_group = false then
    match db.users.find? (fun u => u.id == uid) with
    | some _ => some (((db.p2pMessages.filter fun m => m.origin_user_id == uid).map
        fun m => m.message))
    | none => none
  else
    match db.groupChats.find? (fun c => c.id == uid) with
    | some _ => some (((db.groupChatMessages.filter (joinedToChat db uid)).map
        fun m => m.message))
    | none => none

/-- The full result of `Server._get_messages`: the common response is success
with the message list when the unit of work returned one, and the error
`"Identifier <uid> does not exist"` when it returned `None`
(`server.py` lines 104-106). -/
def get_messages (db : DB) (uid : Nat) (is_group : Bool) : ErrMsg ⊕ List String :=
  match get_messages_do db uid is_group with
  | some msgs => Sum.inr msgs
  | none => Sum.inl (ErrMsg.identifierNotFound uid)

/-- The unit of work of `Server._post_messages` (`server.py` lines 123-168).
Returns the new database state and the error, `none` on success.  `new_id` is
the primary key the storage layer assigns to the inserted message row.
The control flow mirrors the source: check the posting user first; then, for a
direct message, the target user; for a group message, the chat and then the
membership row for `(user_id, target_id)`.  The insertion and commit happen
only when a message object was built; every error path leaves the state
unchanged (the transaction is rolled back when the session closes). -/
def post_messages (db : DB) (message : String) (user_id : Nat) (target_id : Nat)
    (target_is_group_chat : Bool) (new_id : Nat) : DB × Option ErrMsg :=
  match db.users.find? (fun u => u.id == user_id) with
  | none => (db, some (ErrMsg.identifierNotFound user_id))
  | some _ =>
    if target_is_group_chat = false then
      match db.users.find? (fun u => u.id == target_id) with
      | none => (db, some (ErrMsg.identifierNotFound target_id))
      | some _ =>
        ({ db with p2pMessages :=
            db.p2pMessages ++ [⟨new_id, message, user_id, target_id⟩] }, none)
    else
      match db.groupChats.find? (fun c => c.id == target_id) with
      | none => (db, some (ErrMsg.identifierNotFound target_id))
      | some _ =>
        match db.groupChatMembers.find?
            (fun gm => gm.user_id == user_id && gm.group_chat_id == target_id) with
        | none => (db, some (ErrMsg.notMember user_id target_id))
        | some member =>
          ({ db with groupChatMessages :=
              db.groupChatMessages ++ [⟨new_id, message, member.id⟩] }, none)

/-- The set of all user ids: `set(t[0] for t in session.query(orm.User.id).all())`
in `Server._add_to_group_chat` (`server.py` line 225). -/
def allUserIds (db : DB) : Finset Nat :=
  (db.users.map fun u => u.id).toFinset

/-- The membership test behind the `ex_users` query of `Server._add_to_group_chat`
(`server.py` lines 232-237) and the existence checks elsewhere: a
`GroupChatMembers` row for `(u, gid)` exists. -/
def isMemberOf (db : DB) (u : Nat) (gid : Nat) : Bool :=
  db.groupChatMembers.any fun gm => gm.user_id == u && gm.group_chat_id == gid

/-- The unit of work of `Server._add_to_group_chat` (`server.py` lines 218-249).
Returns the new state together with either an error or the set of ids actually
added (the code returns `tuple(add_users)` built from a Python set; the
embedding returns the set).  `base_id` is the first primary key the storage
layer assigns to the inserted membership rows; the rows are inserted in
first-occurrence order of the request list (the code iterates a Python set,
whose order is unspecified; the inserted ids play no role in any property
below).
The structure mirrors the source: resolve the chat; compute the requested set
and its unknown part; under `all_or_nothing` a non-empty unknown part fails
with no insertion; otherwise drop unknown ids, compute the ids already members
of this chat; under `all_or_nothing` a non-empty such set fails with no
insertion; otherwise drop them, insert a membership row per remaining id and
commit. -/
def add_to_group_chat (db : DB) (group_chat_id : Nat) (users : List Nat)
    (all_or_nothing : Bool) (base_id : Nat) : DB × (ErrMsg ⊕ Finset Nat) :=
  match db.groupChats.find? (fun c => c.id == group_chat_id) with
  | none => (db, Sum.inl (ErrMsg.unknownIdentifier group_chat_id))
  | some _ =>
    let all_users := allUserIds db
    let add_users := users.toFinset
    let unknown_users := add_users \ all_users
    if unknown_users.Nonempty ∧ all_or_nothing = true then
      (db, Sum.inl (ErrMsg.unknownIdentifiers unknown_users))
    else
      let add_users1 := add_users \ unknown_users
      let ex_users := add_users1.filter fun u => isMemberOf db u group_chat_id = true
      if ex_users.Nonempty ∧ all_or_nothing = true then
        (db, Sum.inl (ErrMsg.usersInChat ex_users group_chat_id))
      else
        let add_users2 := add_users1 \ ex_users
        let new_rows := (users.dedup.filter fun v => decide (v ∈ add_users2)).enum.map
          fun p => GroupChatMemberRow.mk (base_id + p.1) p.2 group_chat_id
        ({ db with groupChatMembers := db.groupChatMembers ++ new_rows },
          Sum.inr add_users2)

/-- The set of ids `_add_to_group_chat` actually adds when `all_or_nothing` is
false (both failure conditions are then disabled): the requested set minus the
unknown ids minus the ids already members of the chat.  This is the `add_users`
value reaching the insertion loop of `server.py` lines 242-246, written out of
line so its computation can be reasoned about separately. -/
def bestEffortAddSet (db : DB) (group_chat_id : Nat) (users : List Nat) : Finset Nat :=
  let add_users1 := users.toFinset \ (users.toFinset \ allUserIds db)
  add_users1 \ add_users1.filter fun v => isMemberOf db v group_chat_id = true

/-- `Server._add_to_group_chat` with the outcome of the final `session.commit()`
(`server.py` line 245) made explicit.  The source wraps that commit in no
`try`/`except` — nor does `DAO._access` — so an exception the storage layer
raises there (e.g. an `IntegrityError`) escapes the unit of work; the
embedding returns `Except.error ()` in that case.  The three early-return
paths never reach the commit and are unaffected. -/
def add_to_group_chat_commitAware (db : DB) (group_chat_id : Nat) (users : List Nat)
    (all_or_nothing : Bool) (base_id : Nat) (commit_raises : Bool) :
    Except Unit (DB × (ErrMsg ⊕ Finset Nat)) :=
  match db.groupChats.find? (fun c => c.id == group_chat_id) with
  | none => Except.ok (db, Sum.inl (ErrMsg.unknownIdentifier group_chat_id))
  | some _ =>
    let all_users := allUserIds db
    let add_users := users.toFinset
    let unknown_users := add_users \ all_users
    if unknown_users.Nonempty ∧ all_or_nothing = true then
      Except.ok (db, Sum.inl (ErrMsg.unknownIdentifiers unknown_users))
    else
      let add_users1 := add_users \ unknown_users
      let ex_users := add_users1.filter fun u => isMemberOf db u group_chat_id = true
      if ex_users.Nonempty ∧ all_or_nothing = true then
        Except.ok (db, Sum.inl (ErrMsg.usersInChat ex_users group_chat_id))
      else
        let add_users2 := add_users1 \ ex_users
        let new_rows := (users.dedup.filter fun v => decide (v ∈ add_users2)).enum.map
          fun p => GroupChatMemberRow.mk (base_id + p.1) p.2 group_chat_id
        if commit_raises then Except.error ()
        else Except.ok
          ({ db with groupChatMembers := db.groupChatMembers ++ new_rows },
            Sum.inr add_users2)

/-- The unit of work of `Server._del_from_group_chat` (`server.py` lines
263-286): resolve the chat, then the user, then the membership row for
`(user_id, group_chat_id)`; delete that row and commit, or return the
corresponding error.  `session.delete(member)` issues a single DELETE on
`GroupChatMembers` by primary key: the ORM declares no relationship and no
cascade from `GroupChatMembers` to `GroupChatMessage`, so the ORM touches no
other table.  The foreign key `GroupChatMessage.group_chat_member_id` carries
no ON DELETE action, and the configured backend is MySQL/InnoDB
(`mysql+pymysql` in `orm.py` and `starter.py`), where an omitted action means
RESTRICT: when any message row references the membership, the DELETE raises an
`IntegrityError`, and — with no `try`/`except` in the method or in
`DAO._access` — the exception escapes the unit of work as a failed future
(`Except.error ()` here).  Only a membership with no bound messages is
actually deleted. -/
def del_from_group_chat (db : DB) (group_chat_id : Nat) (user_id : Nat) :
    Except Unit (DB × Option ErrMsg) :=
  match db.groupChats.find? (fun c => c.id == group_chat_id) with
  | none => Except.ok (db, some (ErrMsg.unknownIdentifier group_chat_id))
  | some _ =>
    match db.users.find? (fun u => u.id == user_id) with
    | none => Except.ok (db, some (ErrMsg.unknownIdentifier user_id))
    | some _ =>
      match db.groupChatMembers.find?
          (fun gm => gm.group_chat_id == group_chat_id && gm.user_id == user_id) with
      | none => Except.ok (db, some (ErrMsg.notMember user_id group_chat_id))
      | some member =>
        if db.groupChatMessages.any
            (fun m => m.group_chat_member_id == member.id) then
          Except.error ()
        else
          Except.ok ({ db with groupChatMembers :=
            db.groupChatMembers.filter fun gm => gm.id != member.id }, none)

end Server

/-! ## The schema's declared constraints

`orm.py` declares, per table, a primary key on `id`, foreign keys, and
`nullable=False` on the two `name` columns.  `UniqueConstraint` is imported at
the top of `orm.py` but never attached to any table: in particular
`GroupChatMembers` carries no unique constraint on `(user_id, group_chat_id)`.
`DB.schemaOk` is the conjunction of exactly the constraints the schema
declares, so it characterises the states the storage layer admits. -/

/-- A list of rows has pairwise distinct values under `key` (a primary-key
constraint). -/
def pkUnique {α : Type} (key : α → Nat) (rows : List α) : Bool :=
  (rows.map key).Nodup

/-- A foreign-key column value references an existing row id. -/
def fkInto {α : Type} (key : α → Nat) (rows : List α) (v : Nat) : Bool :=
  rows.any fun r => key r == v

/-- The database states admitted by the schema of `orm.py`: primary keys are
unique and foreign keys reference existing rows.  No other table constraint is
declared in the source — in particular, no unique constraint on
`GroupChatMembers (user_id, group_chat_id)`. -/
def DB.schemaOk (db : DB) : Bool :=
  pkUnique (fun u => u.id) db.users &&
  pkUnique (fun c => c.id) db.groupChats &&
  pkUnique (fun m => m.id) db.p2pMessages &&
  pkUnique (fun gm => gm.id) db.groupChatMembers &&
  pkUnique (fun m => m.id) db.groupChatMessages &&
  db.p2pMessages.all (fun m => fkInto (fun u => u.id) db.users m.origin_user_id &&
    fkInto (fun u => u.id) db.users m.target_user_id) &&
  db.groupChatMembers.all (fun gm => fkInto (fun u => u.id) db.users gm.user_id &&
    fkInto (fun c => c.id) db.groupChats gm.group_chat_id) &&
  db.groupChatMessages.all (fun m =>
    fkInto (fun gm => gm.id) db.groupChatMembers m.group_chat_member_id)

/-- Number of `GroupChatMembers` rows for the pair `(u, gid)`. -/
def membershipCount (db : DB) (u : Nat) (gid : Nat) : Nat :=
  (db.groupChatMembers.filter fun gm => gm.user_id == u && gm.group_chat_id == gid).length

/-! ## Concrete states used by witnesses and counterexamples -/

/-- A small concrete state: users 1 and 2, group chat 1, user 1 a member of
chat 1 through membership row 5, and one group message "hi" posted under that
membership. -/
def sampleDB : DB :=
  ⟨[⟨1, "alice"⟩, ⟨2, "bob"⟩], [⟨1, "chat"⟩], [], [⟨5, 1, 1⟩], [⟨9, "hi", 5⟩]⟩

/-- Like `sampleDB`, with two direct messages: "out" sent by user 1 to user 2
and "in" sent by user 2 to user 1. -/
def dmDB : DB :=
  ⟨[⟨1, "alice"⟩, ⟨2, "bob"⟩], [⟨1, "chat"⟩], [⟨1, "out", 1, 2⟩, ⟨2, "in", 2, 1⟩],
    [⟨5, 1, 1⟩], [⟨9, "hi", 5⟩]⟩

/-- A state holding two `GroupChatMembers` rows (ids 5 and 6) for the same
pair: user 1, group chat 1. -/
def dupMembershipDB : DB :=
  ⟨[⟨1, "alice"⟩], [⟨1, "chat"⟩], [], [⟨5, 1, 1⟩, ⟨6, 1, 1⟩], []⟩

/-! ## Claims -/

/-- C1: the claim asserts that at-most-one-membership-per-(user, chat) is
enforced by a storage-layer constraint on the `GroupChatMembers` table.  No
such constraint exists: `orm.py` imports `UniqueConstraint` but never attaches
it, so the schema admits a state with two membership rows for the same
`(user_id, group_chat_id)` pair — `dupMembershipDB` satisfies every constraint
the schema declares while holding two rows for user 1 in chat 1.  Only the
in-transaction application check in `_add_to_group_chat` guards against
duplicates, which cannot stop two concurrent inserts. -/
theorem C1_schema_admits_duplicate_membership :
    dupMembershipDB.schemaOk = true ∧ membershipCount dupMembershipDB 1 1 = 2 := by
  constructor <;> rfl

/-- C2: the claim asserts that a unique-constraint violation raised by the
storage layer while `addMembers` commits is translated into the Conflict-shaped
error string.  The code does the opposite: `session.commit()` in
`_add_to_group_chat` is wrapped in no `try`/`except` (nor is anything in
`DAO._access`), so whenever a run reaches the commit (any run that would
return the added set) and the storage layer raises there, the exception
escapes the unit of work as a failed future instead of an `ErrMsg` result. -/
theorem C2_commit_exception_propagates (db : DB) (gid : Nat) (users : List Nat)
    (aon : Bool) (base : Nat) (db2 : DB) (added : Finset Nat)
    (h : Server.add_to_group_chat db gid users aon base = (db2, Sum.inr added)) :
    Server.add_to_group_chat_commitAware db gid users aon base true =
      Except.error () := by
  unfold Server.add_to_group_chat at h
  unfold Server.add_to_group_chat_commitAware
  split
  next heq => rw [heq] at h; simp at h
  next c heq =>
    rw [heq] at h
    dsimp only at h ⊢
    split
    next hc => rw [if_pos hc] at h; simp at h
    next hc =>
      rw [if_neg hc] at h
      split
      next hc2 => rw [if_pos hc2] at h; simp at h
      next hc2 => rfl

/-- C2 witness: on `sampleDB`, `addMembers(chat 1, [2], allOrNothing=false)`
reaches its commit (it returns added set `{2}` when the commit succeeds), and
with the commit raising, the operation propagates the exception. -/
theorem C2_commit_exception_propagates_witness :
    Server.add_to_group_chat_commitAware sampleDB 1 [2] false 10 true =
      Except.error () :=
  C2_commit_exception_propagates sampleDB 1 [2] false 10
    { sampleDB with groupChatMembers := sampleDB.groupChatMembers ++ [⟨10, 2, 1⟩] }
    {2} (by decide)

/-- C3: the claim asserts that after `removeMember(chat, u1)` succeeds, the
`GroupChatMessage` rows bound to the deleted membership are deleted with it
(cascade) and a subsequent `getMessages(chat, isGroup=true)` excludes them.
The code cannot exhibit this: no cascade is declared in the schema or the ORM,
and the ON DELETE-less foreign key from `GroupChatMessage` makes the storage
layer reject the bare membership DELETE whenever such messages exist.  On
`sampleDB` — membership row 5 of (user 1, chat 1), with message row 9 bound to
it — `removeMember(1, 1)` raises `IntegrityError` out of the unit of work as a
failed future instead of succeeding; nothing is deleted at all. -/
theorem C3_remove_member_with_messages_raises :
    Server.del_from_group_chat sampleDB 1 1 = Except.error () := by
  rfl

/-- C4: under `allOrNothing = true`, when the chat exists and at least one
requested id is unknown, `addMembers` returns the Conflict error carrying
exactly the set of unknown ids and leaves the database unchanged — no
membership row is inserted, not even for the requested ids that do exist. -/
theorem C4_all_or_nothing_unknown_no_insert (db : DB) (gid : Nat)
    (users : List Nat) (base : Nat) (chat : GroupChatRow)
    (hchat : db.groupChats.find? (fun c => c.id == gid) = some chat)
    (hunk : (users.toFinset \ Server.allUserIds db).Nonempty) :
    Server.add_to_group_chat db gid users true base =
      (db, Sum.inl (ErrMsg.unknownIdentifiers
        (users.toFinset \ Server.allUserIds db))) := by
  unfold Server.add_to_group_chat
  rw [hchat]
  dsimp only
  rw [if_pos ⟨hunk, rfl⟩]

/-- C4 witness: on `sampleDB` (users 1 and 2, chat 1),
`addMembers(1, [1, 3], allOrNothing=true)` fails with the unknown-ids error
`{3}` and leaves the state unchanged, although user 1 exists. -/
theorem C4_all_or_nothing_unknown_no_insert_witness :
    Server.add_to_group_chat sampleDB 1 [1, 3] true 10 =
      (sampleDB, Sum.inl (ErrMsg.unknownIdentifiers {3})) := by
  have h := C4_all_or_nothing_unknown_no_insert sampleDB 1 [1, 3] 10
    ⟨1, "chat"⟩ rfl (by decide)
  rw [h]
  decide

/-- C5: the existence checks of `postMessage` are ordered as claimed: an
unknown posting user yields NotFound(userId) whatever the target is; a known
user posting to an unknown group chat yields NotFound(targetId); and the
not-a-member error can only arise when both the user and the chat exist (and
the target is a group chat). -/
theorem C5_post_message_check_order (db : DB) (msg : String) (u t nid : Nat) :
    ((db.users.find? fun x => x.id == u) = none →
      ∀ g : Bool, (Server.post_messages db msg u t g nid).2 =
        some (ErrMsg.identifierNotFound u)) ∧
    ((db.users.find? fun x => x.id == u).isSome = true →
      (db.groupChats.find? fun c => c.id == t) = none →
      (Server.post_messages db msg u t true nid).2 =
        some (ErrMsg.identifierNotFound t)) ∧
    (∀ g : Bool, (Server.post_messages db msg u t g nid).2 =
        some (ErrMsg.notMember u t) →
      (db.users.find? fun x => x.id == u).isSome = true ∧
      (db.groupChats.find? fun c => c.id == t).isSome = true ∧ g = true) := by
  refine ⟨?_, ?_, ?_⟩
  · intro h g
    unfold Server.post_messages
    rw [h]
  · intro h1 h2
    obtain ⟨user, hu⟩ := Option.isSome_iff_exists.mp h1
    unfold Server.post_messages
    rw [hu]
    dsimp only
    rw [if_neg (by simp), h2]
  · intro g h
    unfold Server.post_messages at h
    cases hu : db.users.find? fun x => x.id == u with
    | none => rw [hu] at h; simp at h
    | some user =>
      rw [hu] at h
      cases g with
      | false =>
        rw [if_pos rfl] at h
        cases ht : db.users.find? fun x => x.id == t with
        | none => rw [ht] at h; simp at h
        | some tu => rw [ht] at h; simp at h
      | true =>
        rw [if_neg (by simp)] at h
        cases hc : db.groupChats.find? fun c => c.id == t with
        | none => rw [hc] at h; simp at h
        | some chat =>
          exact ⟨rfl, rfl, rfl⟩

/-- C5 witness: on `emptyish` inputs, posting as unknown user 7 to unknown
target 8 fails NotFound(7); posting as user 1 to unknown chat 8 fails
NotFound(8); and a notMember result on `sampleDB` (user 2 posting to chat 1)
implies both exist. -/
theorem C5_post_message_check_order_witness :
    (Server.post_messages sampleDB "x" 7 8 true 99).2 =
      some (ErrMsg.identifierNotFound 7) ∧
    (Server.post_messages sampleDB "x" 1 8 true 99).2 =
      some (ErrMsg.identifierNotFound 8) ∧
    ((sampleDB.users.find? fun x => x.id == 2).isSome = true ∧
      (sampleDB.groupChats.find? fun c => c.id == 1).isSome = true ∧
      true = true) := by
  refine ⟨(C5_post_message_check_order sampleDB "x" 7 8 99).1 rfl true,
    (C5_post_message_check_order sampleDB "x" 1 8 99).2.1 rfl rfl,
    (C5_post_message_check_order sampleDB "x" 2 1 99).2.2 true rfl⟩

/-- C6: posting to an existing group chat as an existing user who is not a
member fails with the not-a-member error and leaves the state unchanged, so
any subsequent `getMessages` call returns the same result as before. -/
theorem C6_nonmember_post_inserts_nothing (db : DB) (msg : String)
    (u gid nid : Nat) (user : UserRow) (chat : GroupChatRow)
    (huser : db.users.find? (fun x => x.id == u) = some user)
    (hchat : db.groupChats.find? (fun c => c.id == gid) = some chat)
    (hnm : db.groupChatMembers.find?
      (fun gm => gm.user_id == u && gm.group_chat_id == gid) = none) :
    Server.post_messages db msg u gid true nid =
      (db, some (ErrMsg.notMember u gid)) ∧
    ∀ (q : Nat) (b : Bool),
      Server.get_messages (Server.post_messages db msg u gid true nid).1 q b =
        Server.get_messages db q b := by
  have h : Server.post_messages db msg u gid true nid =
      (db, some (ErrMsg.notMember u gid)) := by
    unfold Server.post_messages
    rw [huser]
    dsimp only
    rw [if_neg (by simp), hchat, hnm]
  exact ⟨h, fun q b => by rw [h]⟩

/-- C6 witness: on `sampleDB`, user 2 exists but is not a member of chat 1;
posting fails notMember, and `getMessages(1, true)` is unchanged. -/
theorem C6_nonmember_post_inserts_nothing_witness :
    Server.post_messages sampleDB "x" 2 1 true 99 =
      (sampleDB, some (ErrMsg.notMember 2 1)) ∧
    Server.get_messages (Server.post_messages sampleDB "x" 2 1 true 99).1 1 true =
      Server.get_messages sampleDB 1 true := by
  have h := C6_nonmember_post_inserts_nothing sampleDB "x" 2 1 99
    ⟨2, "bob"⟩ ⟨1, "chat"⟩ rfl rfl rfl
  exact ⟨h.1, h.2 1 true⟩

/-- On an existing chat, `addMembers` under `allOrNothing = false` never takes
either failure branch: it inserts a row per id in `bestEffortAddSet` and
returns that set. -/
theorem add_to_group_chat_false_eq (db : DB) (gid : Nat) (users : List Nat)
    (base : Nat) (chat : GroupChatRow)
    (hchat : db.groupChats.find? (fun c => c.id == gid) = some chat) :
    Server.add_to_group_chat db gid users false base =
      ({ db with groupChatMembers := db.groupChatMembers ++
          ((users.dedup.filter fun v =>
              decide (v ∈ Server.bestEffortAddSet db gid users)).enum.map
            fun p => GroupChatMemberRow.mk (base + p.1) p.2 gid) },
        Sum.inr (Server.bestEffortAddSet db gid users)) := by
  unfold Server.add_to_group_chat Server.bestEffortAddSet
  rw [hchat]
  dsimp only
  rw [if_neg (by simp), if_neg (by simp)]

/-- For a single requested id that exists and is not yet a member, the
best-effort add set is that id alone. -/
theorem bestEffortAddSet_single_new (db : DB) (gid u : Nat)
    (huser : u ∈ Server.allUserIds db)
    (hnm : Server.isMemberOf db u gid = false) :
    Server.bestEffortAddSet db gid [u] = {u} := by
  have h1 : ({u} : Finset Nat) \ Server.allUserIds db = ∅ :=
    Finset.sdiff_eq_empty_iff_subset.mpr (Finset.singleton_subset_iff.mpr huser)
  unfold Server.bestEffortAddSet
  simp [h1, Finset.filter_singleton, hnm]

/-- For a single requested id that exists and is already a member, the
best-effort add set is empty. -/
theorem bestEffortAddSet_single_member (db : DB) (gid u : Nat)
    (huser : u ∈ Server.allUserIds db)
    (hm : Server.isMemberOf db u gid = true) :
    Server.bestEffortAddSet db gid [u] = ∅ := by
  have h1 : ({u} : Finset Nat) \ Server.allUserIds db = ∅ :=
    Finset.sdiff_eq_empty_iff_subset.mpr (Finset.singleton_subset_iff.mpr huser)
  unfold Server.bestEffortAddSet
  simp [h1, Finset.filter_singleton, hm]

/-- C7: best-effort add is idempotent.  With an existing chat, an existing
user `u` not yet a member, `addMembers(gid, [u], allOrNothing=false)` returns
the added set `{u}`; calling it again on the resulting state returns the empty
set, because the already-present member is silently skipped. -/
theorem C7_best_effort_add_idempotent (db : DB) (gid u b1 b2 : Nat)
    (chat : GroupChatRow)
    (hchat : db.groupChats.find? (fun c => c.id == gid) = some chat)
    (huser : u ∈ Server.allUserIds db)
    (hnm : Server.isMemberOf db u gid = false) :
    (Server.add_to_group_chat db gid [u] false b1).2 = Sum.inr {u} ∧
    (Server.add_to_group_chat
      (Server.add_to_group_chat db gid [u] false b1).1 gid [u] false b2).2 =
      Sum.inr (∅ : Finset Nat) := by
  have hs1 := bestEffortAddSet_single_new db gid u huser hnm
  have hd : ([u] : List Nat).dedup = [u] := by
    rw [List.dedup_cons_of_not_mem (by simp), List.dedup_nil]
  have e1 : Server.add_to_group_chat db gid [u] false b1 =
      ({ db with groupChatMembers := db.groupChatMembers ++ [⟨b1, u, gid⟩] },
        Sum.inr {u}) := by
    rw [add_to_group_chat_false_eq db gid [u] b1 chat hchat, hs1, hd]
    simp [List.filter_singleton]
  refine ⟨by rw [e1], ?_⟩
  rw [e1]
  dsimp only
  have hm1 : Server.isMemberOf
      { db with groupChatMembers := db.groupChatMembers ++ [⟨b1, u, gid⟩] } u gid =
      true := by
    simp [Server.isMemberOf]
  have hs2 := bestEffortAddSet_single_member
    { db with groupChatMembers := db.groupChatMembers ++ [⟨b1, u, gid⟩] } gid u
    huser hm1
  have hchat1 : ({ db with groupChatMembers :=
      db.groupChatMembers ++ [⟨b1, u, gid⟩] } : DB).groupChats.find?
      (fun c => c.id == gid) = some chat := hchat
  rw [add_to_group_chat_false_eq _ gid [u] b2 chat hchat1, hs2]

/-- C7 witness: on `sampleDB`, adding user 2 to chat 1 best-effort returns
`{2}`; repeating the call on the resulting state returns the empty set. -/
theorem C7_best_effort_add_idempotent_witness :
    (Server.add_to_group_chat sampleDB 1 [2] false 10).2 = Sum.inr {2} ∧
    (Server.add_to_group_chat (Server.add_to_group_chat sampleDB 1 [2] false 10).1
      1 [2] false 20).2 = Sum.inr (∅ : Finset Nat) :=
  C7_best_effort_add_idempotent sampleDB 1 2 10 20 ⟨1, "chat"⟩ rfl
    (by decide) (by decide)

/-- C8: `getMessages(id, isGroup)` resolves `id` against the `User` table when
`isGroup` is false and the `GroupChat` table when `isGroup` is true; an id
absent from the queried table yields the NotFound error naming that id (no
assumption is made about the other table, so this holds regardless of whether
the id exists there); an id present in the queried table with no relevant
messages yields the empty list, not NotFound. -/
theorem C8_get_messages_not_found_or_empty (db : DB) (i : Nat) :
    ((db.users.find? fun x => x.id == i) = none →
      Server.get_messages db i false = Sum.inl (ErrMsg.identifierNotFound i)) ∧
    ((db.groupChats.find? fun c => c.id == i) = none →
      Server.get_messages db i true = Sum.inl (ErrMsg.identifierNotFound i)) ∧
    (∀ user, (db.users.find? fun x => x.id == i) = some user →
      db.p2pMessages.filter (fun m => m.origin_user_id == i) = [] →
      Server.get_messages db i false = Sum.inr []) ∧
    (∀ chat, (db.groupChats.find? fun c => c.id == i) = some chat →
      db.groupChatMessages.filter (Server.joinedToChat db i) = [] →
      Server.get_messages db i true = Sum.inr []) := by
  refine ⟨?_, ?_, ?_, ?_⟩
  · intro h
    unfold Server.get_messages Server.get_messages_do
    rw [if_pos rfl, h]
  · intro h
    unfold Server.get_messages Server.get_messages_do
    rw [if_neg (by simp), h]
  · intro user hu hf
    unfold Server.get_messages Server.get_messages_do
    rw [if_pos rfl, hu]
    dsimp only
    rw [hf]
    rfl
  · intro chat hc hf
    unfold Server.get_messages Server.get_messages_do
    rw [if_neg (by simp), hc]
    dsimp only
    rw [hf]
    rfl

/-- C8 witness: id 2 is a user but not a chat, so `getMessages(2, true)` is
NotFound(2); id 3 is in neither table, so `getMessages(3, false)` is
NotFound(3); user 2 exists with no sent messages, so `getMessages(2, false)`
is the empty list; chat 1 of `dupMembershipDB` exists with no messages, so
`getMessages(1, true)` there is the empty list. -/
theorem C8_get_messages_not_found_or_empty_witness :
    Server.get_messages sampleDB 2 true = Sum.inl (ErrMsg.identifierNotFound 2) ∧
    Server.get_messages sampleDB 3 false = Sum.inl (ErrMsg.identifierNotFound 3) ∧
    Server.get_messages sampleDB 2 false = Sum.inr [] ∧
    Server.get_messages dupMembershipDB 1 true = Sum.inr [] :=
  ⟨(C8_get_messages_not_found_or_empty sampleDB 2).2.1 rfl,
    (C8_get_messages_not_found_or_empty sampleDB 3).1 rfl,
    (C8_get_messages_not_found_or_empty sampleDB 2).2.2.1 ⟨2, "bob"⟩ rfl rfl,
    (C8_get_messages_not_found_or_empty dupMembershipDB 1).2.2.2 ⟨1, "chat"⟩ rfl rfl⟩

/-- C9: for an existing user id, `getMessages(id, false)` returns exactly the
texts of the `P2PMessage` rows whose origin is that user (counted with
multiplicity, for every candidate text `s`); for an existing group chat id,
`getMessages(id, true)` returns exactly the texts of the `GroupChatMessage`
rows joined through a membership row of that chat. -/
theorem C9_get_messages_content (db : DB) (i : Nat) (s : String) :
    (∀ user, (db.users.find? fun x => x.id == i) = some user →
      ∃ l, Server.get_messages db i false = Sum.inr l ∧
        l.count s = (db.p2pMessages.filter fun m =>
          m.message == s && m.origin_user_id == i).length) ∧
    (∀ chat, (db.groupChats.find? fun c => c.id == i) = some chat →
      ∃ l, Server.get_messages db i true = Sum.inr l ∧
        l.count s = (db.groupChatMessages.filter fun m =>
          m.message == s && Server.joinedToChat db i m).length) := by
  constructor
  · intro user hu
    refine ⟨(db.p2pMessages.filter fun m => m.origin_user_id == i).map
        (fun m => m.message), ?_, ?_⟩
    · unfold Server.get_messages Server.get_messages_do
      rw [if_pos rfl, hu]
    · rw [List.count_eq_countP, List.countP_map, List.countP_filter,
        ← List.countP_eq_length_filter]
      rfl
  · intro chat hc
    refine ⟨(db.groupChatMessages.filter (Server.joinedToChat db i)).map
        (fun m => m.message), ?_, ?_⟩
    · unfold Server.get_messages Server.get_messages_do
      rw [if_neg (by simp), hc]
    · rw [List.count_eq_countP, List.countP_map, List.countP_filter,
        ← List.countP_eq_length_filter]
      rfl

/-- C9 witness: on `dmDB`, user 1 sent "out" and received "in":
`getMessages(1, false)` returns `["out"]` only.  Chat 1 holds the one group
message "hi": `getMessages(1, true)` returns `["hi"]`. -/
theorem C9_get_messages_content_witness :
    Server.get_messages dmDB 1 false = Sum.inr ["out"] ∧
    Server.get_messages dmDB 1 true = Sum.inr ["hi"] := by
  obtain ⟨l1, hl1, -⟩ := (C9_get_messages_content dmDB 1 "out").1 ⟨1, "alice"⟩ rfl
  obtain ⟨l2, hl2, -⟩ := (C9_get_messages_content dmDB 1 "hi").2 ⟨1, "chat"⟩ rfl
  obtain rfl : l1 = ["out"] := Sum.inr.inj (hl1.symm.trans rfl)
  obtain rfl : l2 = ["hi"] := Sum.inr.inj (hl2.symm.trans rfl)
  exact ⟨hl1, hl2⟩

/-- The membership rows `addMembers` inserts carry pairwise distinct user ids
(the iterated set is modelled by a deduplicated list), so they contribute at
most one row for any given user id of this chat. -/
theorem newRows_count_le_one (l : List Nat) (hl : l.Nodup) (base gid u : Nat) :
    ((l.enum.map fun p => GroupChatMemberRow.mk (base + p.1) p.2 gid).filter
      fun gm => gm.user_id == u && gm.group_chat_id == gid).length ≤ 1 := by
  rw [← List.countP_eq_length_filter, List.countP_map]
  have h1 : l.enum.countP ((fun gm => gm.user_id == u && gm.group_chat_id == gid) ∘
      fun p => GroupChatMemberRow.mk (base + p.1) p.2 gid) =
      l.enum.countP ((· == u) ∘ Prod.snd) := by
    refine List.countP_congr fun p _ => ?_
    simp [Function.comp]
  rw [h1, ← List.countP_map, List.enum_map_snd, ← List.count_eq_countP]
  exact List.nodup_iff_count_le_one.mp hl u

/-- Appending such rows to the member table raises the row count for any
`(u, gid)` pair by at most one. -/
theorem memberRows_append_le (old : List GroupChatMemberRow) (l : List Nat)
    (hl : l.Nodup) (base gid u : Nat) :
    ((old ++ l.enum.map fun p => GroupChatMemberRow.mk (base + p.1) p.2 gid).filter
      fun gm => gm.user_id == u && gm.group_chat_id == gid).length ≤
      (old.filter fun gm => gm.user_id == u && gm.group_chat_id == gid).length + 1 := by
  rw [List.filter_append, List.length_append]
  have := newRows_count_le_one l hl base gid u
  omega

/-- C10: `addMembers` deduplicates its input.  Whatever the request list —
duplicates included — the number of membership rows for any user id in this
chat grows by at most one, and the returned set of added ids contains any id
at most once. -/
theorem C10_add_members_dedups_input (db : DB) (gid : Nat) (users : List Nat)
    (aon : Bool) (base u : Nat) :
    membershipCount (Server.add_to_group_chat db gid users aon base).1 u gid ≤
      membershipCount db u gid + 1 ∧
    ∀ added, (Server.add_to_group_chat db gid users aon base).2 = Sum.inr added →
      added.val.count u ≤ 1 := by
  refine ⟨?_, fun added _ => Multiset.nodup_iff_count_le_one.mp added.nodup u⟩
  unfold Server.add_to_group_chat
  split
  · exact Nat.le_succ _
  · dsimp only
    split
    · exact Nat.le_succ _
    · split
      · exact Nat.le_succ _
      · unfold membershipCount
        dsimp only
        exact memberRows_append_le db.groupChatMembers _
          (List.Nodup.filter _ (List.nodup_dedup users)) base gid u

/-- C10 witness: requesting `[2, 2, 2]` on `sampleDB` adds one membership row
for user 2 and returns a set containing 2 once. -/
theorem C10_add_members_dedups_input_witness :
    membershipCount (Server.add_to_group_chat sampleDB 1 [2, 2, 2] false 10).1 2 1 ≤
      membershipCount sampleDB 2 1 + 1 ∧
    (Server.add_to_group_chat sampleDB 1 [2, 2, 2] false 10).2 =
      Sum.inr {2} ∧ ({2} : Finset Nat).val.count 2 ≤ 1 := by
  have h := C10_add_members_dedups_input sampleDB 1 [2, 2, 2] false 10 2
  exact ⟨h.1, by decide, h.2 {2} (by decide)⟩

